import Mathlib

/-!
Verification of the LLM-inference performance-modeling engine
(`src/frontend/src/utils/calculations.ts` and the type/constant tables in
`src/frontend/src/types/calculator.ts`).

Shallow embedding conventions:
- JavaScript numbers are idealized as exact rationals (`ℚ`); values produced
  through `Math.sqrt`/`Math.round` are idealized as exact reals (`ℝ`).
  Floating-point rounding is not modeled.
- The human-readable warning message strings built with template literals and
  `toFixed` are abstracted to the tag of the rule that produced them
  (`MemoryWarningKind`); which rule fires, and the numeric fields, are modeled
  exactly.
- For the error-handling claim about division by zero, a small exact model of
  JavaScript IEEE-754 special values (`JSNum`: NaN, ±Infinity, finite) is used
  to re-embed the affected division, since on `ℚ`/`ℝ` the Lean convention
  `x / 0 = 0` would not show the `Infinity` that JavaScript produces.
-/

/-- GPUSpecs from `types/calculator.ts`: `computeBandwidth` in TFLOPS,
`memoryBandwidth` in GB/s, `memorySize` in GB. -/
structure GPUSpecs where
  name : String
  computeBandwidth : ℚ
  memoryBandwidth : ℚ
  memorySize : ℚ
deriving DecidableEq

/-- ModelSpecs from `types/calculator.ts`: `parameters` in billions,
`sequenceLength` is the context length N, `quantization` a name looked up in
the quantization table. `headDimension`, `nLayers`, `nHeads` are optional. -/
structure ModelSpecs where
  parameters : ℚ
  sequenceLength : ℚ
  batchSize : ℚ
  promptTokens : ℚ
  outputTokens : ℚ
  quantization : String
  headDimension : Option ℚ
  nLayers : Option ℚ
  nHeads : Option ℚ
deriving DecidableEq

/-- QuantizationInfo from `types/calculator.ts`. -/
structure QuantizationInfo where
  name : String
  bytesPerParameter : ℚ
  description : String
  computeMultiplier : ℚ
deriving DecidableEq

/-- QUANTIZATION_OPTIONS from `types/calculator.ts`: the four rows FP32, FP16,
INT8, INT4 in their source order. -/
def QUANTIZATION_OPTIONS : List QuantizationInfo :=
  [{ name := "FP32"
     bytesPerParameter := 4
     description := "32-bit floating point - highest precision, largest size"
     computeMultiplier := 0.5 },
   { name := "FP16"
     bytesPerParameter := 2
     description := "16-bit floating point - good precision/performance balance"
     computeMultiplier := 1.0 },
   { name := "INT8"
     bytesPerParameter := 1
     description := "8-bit integer - smaller size, slight quality loss"
     computeMultiplier := 2.0 },
   { name := "INT4"
     bytesPerParameter := 0.5
     description := "4-bit integer - smallest size, noticeable quality loss"
     computeMultiplier := 4.0 }]

/-- getQuantizationInfo from `calculations.ts`:
`QUANTIZATION_OPTIONS.find(q => q.name === quantization) || QUANTIZATION_OPTIONS[1]`,
the `||` fallback defaulting to the FP16 row at index 1. -/
def getQuantizationInfo (quantization : String) : QuantizationInfo :=
  match QUANTIZATION_OPTIONS.find? (fun q => q.name == quantization) with
  | some info => info
  | none => QUANTIZATION_OPTIONS.get ⟨1, by decide⟩

/-- calculateModelSizeBytes from `calculations.ts`:
`model.parameters * 1e9 * quantInfo.bytesPerParameter`. -/
def calculateModelSizeBytes (model : ModelSpecs) : ℚ :=
  model.parameters * 1e9 * (getQuantizationInfo model.quantization).bytesPerParameter

/-- calculateOpsToByteRatio from `calculations.ts`:
`(gpu.computeBandwidth * 1e12) / (gpu.memoryBandwidth * 1e9)` (TFLOPS to FLOPS,
GB/s to bytes/s). Division here is the exact-rational idealization; the
JavaScript division-by-zero behavior is modeled by `calculateOpsToByteRatioJS`. -/
def calculateOpsToByteRatio (gpu : GPUSpecs) : ℚ :=
  gpu.computeBandwidth * 1e12 / (gpu.memoryBandwidth * 1e9)

/-- estimateModelDimension from `calculations.ts`: the piecewise estimate of the
hidden dimension from the parameter count in billions, with
`Math.round(8192 * Math.sqrt(parameters / 65))` for models above 65B. Lean's
`round` rounds halves up, exactly as `Math.round` does. -/
noncomputable def estimateModelDimension (parameters : ℚ) : ℝ :=
  if parameters ≤ 1 then 2048
  else if parameters ≤ 3 then 3072
  else if parameters ≤ 7 then 4096
  else if parameters ≤ 13 then 5120
  else if parameters ≤ 30 then 6656
  else if parameters ≤ 65 then 8192
  else ((round ((8192 : ℝ) * Real.sqrt ((parameters : ℝ) / 65)) : ℤ) : ℝ)

/-- calculateArithmeticIntensity from `calculations.ts`: with `d` the estimated
hidden dimension and `N` the sequence length, memory movement is
`(8N^2 + 8Nd) * bytesPerParameter / 2` bytes (FP16 baseline scaled by
quantization), compute is `4N^2 d + 3N^2` FLOPs; their quotient is scaled by
the batch size and clamped below by `Math.max(0.1, ...)`. -/
noncomputable def calculateArithmeticIntensity (model : ModelSpecs) : ℝ :=
  let d := estimateModelDimension model.parameters
  let N : ℝ := (model.sequenceLength : ℝ)
  let quantInfo := getQuantizationInfo model.quantization
  let totalMemoryMovement := (8 * N * N + 8 * N * d) * (quantInfo.bytesPerParameter : ℝ) / 2
  let totalCompute := 4 * N * N * d + 3 * N * N
  let arithmeticIntensity := totalCompute / totalMemoryMovement
  max 0.1 (arithmeticIntensity * (model.batchSize : ℝ))

/-- calculatePrefillTime from `calculations.ts`:
`(promptTokens * parameters*1e9 * 2) / (computeBandwidth*1e12 * computeMultiplier) * 1000`
milliseconds. -/
def calculatePrefillTime (gpu : GPUSpecs) (model : ModelSpecs) : ℚ :=
  let quantInfo := getQuantizationInfo model.quantization
  let totalFlops := model.promptTokens * (model.parameters * 1e9) * 2
  let effectiveComputeFlops := gpu.computeBandwidth * 1e12 * quantInfo.computeMultiplier
  totalFlops / effectiveComputeFlops * 1000

/-- calculateTimePerToken from `calculations.ts`:
`modelSizeBytes / (memoryBandwidth * 1e9) * 1000` milliseconds. -/
def calculateTimePerToken (gpu : GPUSpecs) (model : ModelSpecs) : ℚ :=
  let modelSizeBytes := calculateModelSizeBytes model
  let memoryBytesPerSecond := gpu.memoryBandwidth * 1e9
  modelSizeBytes / memoryBytesPerSecond * 1000

/-- calculateTotalGenerationTime from `calculations.ts`:
`prefillTime + timePerToken * outputTokens`. -/
def calculateTotalGenerationTime (prefillTime timePerToken outputTokens : ℚ) : ℚ :=
  prefillTime + timePerToken * outputTokens

/-- calculateThroughput from `calculations.ts`: `0` when `totalTime === 0`,
else `totalTokens / totalTime * 1000` (tokens/ms to tokens/s). -/
def calculateThroughput (totalTime totalTokens : ℚ) : ℚ :=
  if totalTime = 0 then 0 else totalTokens / totalTime * 1000

/-- Result shape of determineBottleneck in `calculations.ts`. The two JavaScript
booleans are modeled as the propositions they decide. -/
structure BottleneckResult where
  isMemoryBound : Prop
  isComputeBound : Prop

/-- determineBottleneck from `calculations.ts`:
`isMemoryBound = arithmeticIntensity < opsToByteRatio`,
`isComputeBound = arithmeticIntensity >= opsToByteRatio`. -/
def determineBottleneck ( opsToByteRatio arithmeticIntensity : ℝ) : BottleneckResult :=
  { isMemoryBound := arithmeticIntensity < opsToByteRatio
    isComputeBound := arithmeticIntensity ≥ opsToByteRatio }

/-- Tag of the warning rule of checkMemoryFit that fired. The source builds a
human-readable string with template literals and `toFixed`; only which rule
produced it is modeled. -/
inductive MemoryWarningKind where
  | hardShortfall
  | highUsage
  | moderateUsage
deriving DecidableEq

/-- Result shape of checkMemoryFit in `calculations.ts`, with the optional
message abstracted to its rule tag. -/
structure MemoryFitResult where
  modelSizeGB : ℚ
  memoryUtilization : ℚ
  hasMemoryWarning : Bool
  memoryWarningMessage : Option MemoryWarningKind
deriving DecidableEq

/-- Local `modelSizeGB` of checkMemoryFit: `calculateModelSizeBytes(model) / 1024**3`. -/
def modelSizeGBOf (model : ModelSpecs) : ℚ :=
  calculateModelSizeBytes model / 1024 ^ 3

/-- Local `kvCacheGB` of checkMemoryFit:
`(sequenceLength * batchSize * parameters * 2 * 2) / 1024**3`. -/
def kvCacheGBOf (model : ModelSpecs) : ℚ :=
  model.sequenceLength * model.batchSize * model.parameters * 2 * 2 / 1024 ^ 3

/-- Local `totalMemoryWithKV` of checkMemoryFit: the model size with the 1.2x
overhead multiplier plus the KV-cache estimate. -/
def totalMemoryWithKVOf (model : ModelSpecs) : ℚ :=
  modelSizeGBOf model * 1.2 + kvCacheGBOf model

/-- Local `memoryUtilization` of checkMemoryFit:
`totalMemoryWithKV / gpu.memorySize * 100`. -/
def memoryUtilizationOf (gpu : GPUSpecs) (model : ModelSpecs) : ℚ :=
  totalMemoryWithKVOf model / gpu.memorySize * 100

/-- checkMemoryFit from `calculations.ts`: three warning rules tried in order
(hard shortfall when `totalMemoryWithKV > gpuMemoryGB`, high usage when
utilization exceeds 90, moderate when it exceeds 80), the reported utilization
capped at 999 by `Math.min`. -/
def checkMemoryFit (gpu : GPUSpecs) (model : ModelSpecs) : MemoryFitResult :=
  let modelSizeGB := modelSizeGBOf model
  let gpuMemoryGB := gpu.memorySize
  let totalMemoryWithKV := totalMemoryWithKVOf model
  let memoryUtilization := memoryUtilizationOf gpu model
  if totalMemoryWithKV > gpuMemoryGB then
    { modelSizeGB := modelSizeGB
      memoryUtilization := min memoryUtilization 999
      hasMemoryWarning := true
      memoryWarningMessage := some MemoryWarningKind.hardShortfall }
  else if memoryUtilization > 90 then
    { modelSizeGB := modelSizeGB
      memoryUtilization := min memoryUtilization 999
      hasMemoryWarning := true
      memoryWarningMessage := some MemoryWarningKind.highUsage }
  else if memoryUtilization > 80 then
    { modelSizeGB := modelSizeGB
      memoryUtilization := min memoryUtilization 999
      hasMemoryWarning := true
      memoryWarningMessage := some MemoryWarningKind.moderateUsage }
  else
    { modelSizeGB := modelSizeGB
      memoryUtilization := min memoryUtilization 999
      hasMemoryWarning := false
      memoryWarningMessage := none }

/-- CalculationResults from `types/calculator.ts`, restricted to the fields the
frontend revision of calculatePerformance actually constructs. -/
structure CalculationResults where
  opsToByteRatio : ℚ
  arithmeticIntensity : ℝ
  isMemoryBound : Prop
  isComputeBound : Prop
  prefillTime : ℚ
  timePerToken : ℚ
  totalGenerationTime : ℚ
  throughputTokensPerSecond : ℚ
  modelSizeGB : ℚ
  memoryUtilization : ℚ
  hasMemoryWarning : Bool
  memoryWarningMessage : Option MemoryWarningKind

/-- calculatePerformance from `calculations.ts`: the aggregator composing the
sub-computations into one result record, with no input validation. -/
noncomputable def calculatePerformance (gpu : GPUSpecs) (model : ModelSpecs) : CalculationResults :=
  let opsToByteRatio := calculateOpsToByteRatio gpu
  let arithmeticIntensity := calculateArithmeticIntensity model
  let bottleneck := determineBottleneck (opsToByteRatio : ℝ) arithmeticIntensity
  let memoryCheck := checkMemoryFit gpu model
  let prefillTime := calculatePrefillTime gpu model
  let timePerToken := calculateTimePerToken gpu model
  let totalGenerationTime :=
    calculateTotalGenerationTime prefillTime timePerToken model.outputTokens
  let totalTokens := model.promptTokens + model.outputTokens
  let throughputTokensPerSecond := calculateThroughput totalGenerationTime totalTokens
  { opsToByteRatio := opsToByteRatio
    arithmeticIntensity := arithmeticIntensity
    isMemoryBound := bottleneck.isMemoryBound
    isComputeBound := bottleneck.isComputeBound
    prefillTime := prefillTime
    timePerToken := timePerToken
    totalGenerationTime := totalGenerationTime
    throughputTokensPerSecond := throughputTokensPerSecond
    modelSizeGB := memoryCheck.modelSizeGB
    memoryUtilization := memoryCheck.memoryUtilization
    hasMemoryWarning := memoryCheck.hasMemoryWarning
    memoryWarningMessage := memoryCheck.memoryWarningMessage }

/-- Idealized JavaScript IEEE-754 number for exact arithmetic: NaN, the two
infinities, or a finite value held as an exact rational. Negative zero is not
modeled (all finite inputs in its uses here are nonnegative). -/
inductive JSNum where
  | nan
  | posInf
  | negInf
  | fin (q : ℚ)
deriving DecidableEq

/-- JavaScript multiplication on `JSNum`: NaN propagates, `Infinity * 0 = NaN`,
infinities multiply finite values by sign, finite values multiply exactly. -/
def jsMul : JSNum → JSNum → JSNum
  | .nan, _ => .nan
  | _, .nan => .nan
  | .posInf, .posInf => .posInf
  | .posInf, .negInf => .negInf
  | .negInf, .posInf => .negInf
  | .negInf, .negInf => .posInf
  | .posInf, .fin q => if q = 0 then .nan else if 0 < q then .posInf else .negInf
  | .fin q, .posInf => if q = 0 then .nan else if 0 < q then .posInf else .negInf
  | .negInf, .fin q => if q = 0 then .nan else if 0 < q then .negInf else .posInf
  | .fin q, .negInf => if q = 0 then .nan else if 0 < q then .negInf else .posInf
  | .fin a, .fin b => .fin (a * b)

/-- JavaScript division on `JSNum`: NaN propagates, `Infinity / Infinity = NaN`,
`x / Infinity = 0`, a nonzero finite value divided by zero is a signed
Infinity, `0 / 0 = NaN`, and finite division is exact. -/
def jsDiv : JSNum → JSNum → JSNum
  | .nan, _ => .nan
  | _, .nan => .nan
  | .posInf, .posInf => .nan
  | .posInf, .negInf => .nan
  | .negInf, .posInf => .nan
  | .negInf, .negInf => .nan
  | .posInf, .fin q => if 0 ≤ q then .posInf else .negInf
  | .negInf, .fin q => if 0 ≤ q then .negInf else .posInf
  | .fin _, .posInf => .fin 0
  | .fin _, .negInf => .fin 0
  | .fin a, .fin b =>
      if b = 0 then (if a = 0 then .nan else if 0 < a then .posInf else .negInf)
      else .fin (a / b)

/-- calculateOpsToByteRatio re-embedded with JavaScript number semantics
(`JSNum`), faithful to the source expression
`(gpu.computeBandwidth * 1e12) / (gpu.memoryBandwidth * 1e9)` including the
Infinity produced by a zero denominator. -/
def calculateOpsToByteRatioJS (gpu : GPUSpecs) : JSNum :=
  jsDiv (jsMul (.fin gpu.computeBandwidth) (.fin 1e12))
    (jsMul (.fin gpu.memoryBandwidth) (.fin 1e9))

/-- Sample model spec: the Llama 2 7B preset of `data/models.ts` with the
default prompt/output token counts. -/
def modelA : ModelSpecs :=
  { parameters := 7
    sequenceLength := 4096
    batchSize := 1
    promptTokens := 350
    outputTokens := 150
    quantization := "FP16"
    headDimension := some 128
    nLayers := some 32
    nHeads := some 32 }

/-- Sample model spec differing from `modelA` only in fields that the
arithmetic-intensity formula does not read (token counts and the optional
architecture fields). -/
def modelB : ModelSpecs :=
  { parameters := 7
    sequenceLength := 4096
    batchSize := 1
    promptTokens := 999
    outputTokens := 0
    quantization := "FP16"
    headDimension := some 64
    nLayers := none
    nHeads := some 16 }

/-- Sample GPU spec with zero memory bandwidth, the invalid input used for the
error-handling claim. -/
def gpuZeroBW : GPUSpecs :=
  { name := "ZeroBW"
    computeBandwidth := 65
    memoryBandwidth := 0
    memorySize := 16 }

/-- Sample GPU spec whose memory is exactly 10 GB, used at the 80 percent
utilization boundary. -/
def gpuB : GPUSpecs :=
  { name := "MemGPU"
    computeBandwidth := 65
    memoryBandwidth := 300
    memorySize := 10 }

/-- Sample model spec sized so that its total memory need is exactly 8 GB,
which is exactly 80 percent of the memory of `gpuB` (the KV-cache term is zero
because the sequence length is zero). -/
def modelC : ModelSpecs :=
  { parameters := 4194304 / 1171875
    sequenceLength := 0
    batchSize := 1
    promptTokens := 350
    outputTokens := 150
    quantization := "FP16"
    headDimension := none
    nLayers := none
    nHeads := none }

/-- C2: determineBottleneck returns isComputeBound exactly when the intensity
reaches the hardware ops-to-byte ratio and isMemoryBound exactly when it falls
short, so exactly one flag holds (a tie counts as compute-bound); and
calculateOpsToByteRatio normalizes TFLOP/s and GB/s to base units before
dividing. -/
theorem determineBottleneck_spec :
    (∀ r i : ℝ,
      ((determineBottleneck r i).isComputeBound ↔ i ≥ r) ∧
      ((determineBottleneck r i).isMemoryBound ↔ i < r) ∧
      Xor' (determineBottleneck r i).isMemoryBound (determineBottleneck r i).isComputeBound) ∧
    (∀ gpu : GPUSpecs, calculateOpsToByteRatio gpu =
      gpu.computeBandwidth * 1e12 / (gpu.memoryBandwidth * 1e9)) := by
  refine ⟨fun r i => ⟨Iff.rfl, Iff.rfl, ?_⟩, fun gpu => rfl⟩
  rcases lt_or_ge i r with h | h
  · exact Or.inl ⟨h, not_le.mpr h⟩
  · exact Or.inr ⟨h, not_lt.mpr h⟩

/-- C3: calculatePrefillTime is the prompt FLOPs (two per parameter per token)
over the quantization-adjusted compute bandwidth in milliseconds, and
calculateTimePerToken is the quantized model size over the memory bandwidth in
milliseconds, both with the FP16-fallback quantization lookup. -/
theorem calculateTiming_spec (gpu : GPUSpecs) (model : ModelSpecs) :
    calculatePrefillTime gpu model =
      model.promptTokens * (model.parameters * 1e9) * 2 /
        (gpu.computeBandwidth * 1e12 *
          (getQuantizationInfo model.quantization).computeMultiplier) * 1000 ∧
    calculateTimePerToken gpu model =
      model.parameters * 1e9 * (getQuantizationInfo model.quantization).bytesPerParameter /
        (gpu.memoryBandwidth * 1e9) * 1000 :=
  ⟨rfl, rfl⟩

/-- C8: calculateTotalGenerationTime is prefill time plus per-token time times
the output token count, and with zero output tokens it equals the prefill time
exactly. -/
theorem calculateTotalGenerationTime_spec (prefillTime timePerToken outputTokens : ℚ) :
    calculateTotalGenerationTime prefillTime timePerToken outputTokens =
      prefillTime + timePerToken * outputTokens ∧
    calculateTotalGenerationTime prefillTime timePerToken 0 = prefillTime :=
  ⟨rfl, by simp [calculateTotalGenerationTime]⟩

/-- C9: calculateThroughput returns 0 on zero total time instead of dividing by
zero, and otherwise converts tokens per millisecond to tokens per second. -/
theorem calculateThroughput_spec (totalTime totalTokens : ℚ) :
    calculateThroughput 0 totalTokens = 0 ∧
    (totalTime ≠ 0 → calculateThroughput totalTime totalTokens =
      totalTokens / totalTime * 1000) := by
  constructor
  · simp [calculateThroughput]
  · intro h
    simp [calculateThroughput, h]

/-- C6: the quantization lookup is total: every input resolves to a row of the
table, any name outside the four known ones resolves to the FP16 row at index 1
(bytesPerParameter 2, computeMultiplier 1), and in particular "bogus" resolves
to the same row as "FP16". -/
theorem getQuantizationInfo_spec (s : String) :
    getQuantizationInfo s ∈ QUANTIZATION_OPTIONS ∧
    (s ≠ "FP32" → s ≠ "FP16" → s ≠ "INT8" → s ≠ "INT4" →
      getQuantizationInfo s = getQuantizationInfo "FP16") ∧
    getQuantizationInfo "bogus" = getQuantizationInfo "FP16" ∧
    getQuantizationInfo "FP16" = QUANTIZATION_OPTIONS.get ⟨1, by decide⟩ ∧
    (getQuantizationInfo "FP16").bytesPerParameter = 2 ∧
    (getQuantizationInfo "FP16").computeMultiplier = 1 := by
  have hcm : (getQuantizationInfo "FP16").computeMultiplier = (1.0 : ℚ) := rfl
  refine ⟨?_, ?_, rfl, rfl, rfl, by rw [hcm]; norm_num⟩
  · unfold getQuantizationInfo
    cases h : QUANTIZATION_OPTIONS.find? (fun q => q.name == s) with
    | some info => exact List.mem_of_find?_eq_some h
    | none => exact List.get_mem _ _ _
  · intro h1 h2 h3 h4
    have e1 : (("FP32" : String) == s) = false := beq_eq_false_iff_ne.mpr (Ne.symm h1)
    have e2 : (("FP16" : String) == s) = false := beq_eq_false_iff_ne.mpr (Ne.symm h2)
    have e3 : (("INT8" : String) == s) = false := beq_eq_false_iff_ne.mpr (Ne.symm h3)
    have e4 : (("INT4" : String) == s) = false := beq_eq_false_iff_ne.mpr (Ne.symm h4)
    have hFP : getQuantizationInfo "FP16" = QUANTIZATION_OPTIONS.get ⟨1, by decide⟩ := rfl
    rw [hFP]
    simp [getQuantizationInfo, QUANTIZATION_OPTIONS, List.find?, e1, e2, e3, e4]

/-- C6 witness: the lookup applied at the concrete unrecognized name "bogus". -/
theorem getQuantizationInfo_spec_witness :
    ("bogus" ≠ "FP32") ∧ ("bogus" ≠ "FP16") ∧ ("bogus" ≠ "INT8") ∧ ("bogus" ≠ "INT4") ∧
    getQuantizationInfo "bogus" = getQuantizationInfo "FP16" :=
  ⟨by decide, by decide, by decide, by decide,
    (getQuantizationInfo_spec "bogus").2.1 (by decide) (by decide) (by decide) (by decide)⟩

/-- C5: checkMemoryFit applies its warning rules in order with the first match
winning (hard shortfall when modelSizeGB * 1.2 + kvCacheGB exceeds the GPU
memory, then high usage above 90 percent, then moderate above 80 percent,
otherwise no warning), all comparisons strict so that exactly 80 percent
utilization fires nothing, and reports utilization capped by min at 999. -/
theorem checkMemoryFit_spec (gpu : GPUSpecs) (model : ModelSpecs) :
    ((checkMemoryFit gpu model).memoryWarningMessage =
      if totalMemoryWithKVOf model > gpu.memorySize then some MemoryWarningKind.hardShortfall
      else if memoryUtilizationOf gpu model > 90 then some MemoryWarningKind.highUsage
      else if memoryUtilizationOf gpu model > 80 then some MemoryWarningKind.moderateUsage
      else none) ∧
    ((checkMemoryFit gpu model).hasMemoryWarning =
      (checkMemoryFit gpu model).memoryWarningMessage.isSome) ∧
    ((checkMemoryFit gpu model).memoryUtilization =
      min (memoryUtilizationOf gpu model) 999) ∧
    (0 < gpu.memorySize → memoryUtilizationOf gpu model = 80 →
      (checkMemoryFit gpu model).hasMemoryWarning = false) := by
  refine ⟨?_, ?_, ?_, ?_⟩
  · simp only [checkMemoryFit]
    split_ifs <;> rfl
  · simp only [checkMemoryFit]
    split_ifs <;> rfl
  · simp only [checkMemoryFit]
    split_ifs <;> rfl
  · intro hmem h80
    have hne : gpu.memorySize ≠ 0 := ne_of_gt hmem
    have htot : totalMemoryWithKVOf model * 100 = 80 * gpu.memorySize := by
      have h := h80
      unfold memoryUtilizationOf at h
      field_simp at h
      linarith
    have h1 : ¬ totalMemoryWithKVOf model > gpu.memorySize := by
      intro hgt
      linarith
    have h2 : ¬ memoryUtilizationOf gpu model > 90 := by
      rw [h80]
      norm_num
    have h3 : ¬ memoryUtilizationOf gpu model > 80 := by
      rw [h80]
      norm_num
    simp only [checkMemoryFit]
    rw [if_neg h1, if_neg h2, if_neg h3]

/-- C5 witness: a 10 GB GPU and a model whose total memory need is exactly 8 GB
sit at exactly 80 percent utilization and fire no warning. -/
theorem checkMemoryFit_spec_witness :
    (0 < gpuB.memorySize) ∧ memoryUtilizationOf gpuB modelC = 80 ∧
    (checkMemoryFit gpuB modelC).hasMemoryWarning = false := by
  have hbp : (getQuantizationInfo "FP16").bytesPerParameter = 2 := rfl
  have h80 : memoryUtilizationOf gpuB modelC = 80 := by
    norm_num [memoryUtilizationOf, totalMemoryWithKVOf, modelSizeGBOf, kvCacheGBOf,
      calculateModelSizeBytes, gpuB, modelC, hbp]
  exact ⟨by decide, h80, (checkMemoryFit_spec gpuB modelC).2.2.2 (by decide) h80⟩

/-- C1: calculateArithmeticIntensity equals the clamped batch-scaled quotient of
attention FLOPs over quantization-adjusted memory movement, with the hidden
dimension taken from the piecewise estimator and the bytes-per-parameter from
the quantization lookup, and it is always at least 0.1. -/
theorem calculateArithmeticIntensity_spec (model : ModelSpecs)
    (hN : 1 ≤ model.sequenceLength) (hb : 1 ≤ model.batchSize)
    (hp : 0 < model.parameters) :
    calculateArithmeticIntensity model =
      max 0.1 ((model.batchSize : ℝ) *
          (4 * (model.sequenceLength : ℝ) ^ 2 * estimateModelDimension model.parameters +
            3 * (model.sequenceLength : ℝ) ^ 2) /
          ((8 * (model.sequenceLength : ℝ) ^ 2 +
              8 * (model.sequenceLength : ℝ) * estimateModelDimension model.parameters) *
            ((getQuantizationInfo model.quantization).bytesPerParameter : ℝ) / 2)) ∧
    0.1 ≤ calculateArithmeticIntensity model := by
  constructor
  · simp only [calculateArithmeticIntensity]
    congr 1
    ring
  · simp only [calculateArithmeticIntensity]
    exact le_max_left _ _

/-- C1 witness: the intensity formula applied at the Llama 2 7B sample spec. -/
theorem calculateArithmeticIntensity_spec_witness :
    1 ≤ modelA.sequenceLength ∧ 1 ≤ modelA.batchSize ∧ 0 < modelA.parameters ∧
    (calculateArithmeticIntensity modelA =
      max 0.1 ((modelA.batchSize : ℝ) *
          (4 * (modelA.sequenceLength : ℝ) ^ 2 * estimateModelDimension modelA.parameters +
            3 * (modelA.sequenceLength : ℝ) ^ 2) /
          ((8 * (modelA.sequenceLength : ℝ) ^ 2 +
              8 * (modelA.sequenceLength : ℝ) * estimateModelDimension modelA.parameters) *
            ((getQuantizationInfo modelA.quantization).bytesPerParameter : ℝ) / 2)) ∧
      0.1 ≤ calculateArithmeticIntensity modelA) :=
  ⟨by decide, by decide, by decide,
    calculateArithmeticIntensity_spec modelA (by decide) (by decide) (by decide)⟩

/-- C10: calculateArithmeticIntensity reads only parameters, sequenceLength,
batchSize and quantization: model specs agreeing on those four fields get the
same intensity whatever their token counts or optional architecture fields,
because the hidden dimension is always re-estimated from parameters. -/
theorem calculateArithmeticIntensity_noninterference (m1 m2 : ModelSpecs)
    (hp : m1.parameters = m2.parameters)
    (hs : m1.sequenceLength = m2.sequenceLength)
    (hb : m1.batchSize = m2.batchSize)
    (hq : m1.quantization = m2.quantization) :
    calculateArithmeticIntensity m1 = calculateArithmeticIntensity m2 := by
  simp only [calculateArithmeticIntensity, hp, hs, hb, hq]

/-- C10 witness: two sample specs differing in prompt/output tokens and the
optional architecture fields but agreeing on the four read fields get equal
intensities. -/
theorem calculateArithmeticIntensity_noninterference_witness :
    modelA.parameters = modelB.parameters ∧
    modelA.sequenceLength = modelB.sequenceLength ∧
    modelA.batchSize = modelB.batchSize ∧
    modelA.quantization = modelB.quantization ∧
    modelA.promptTokens ≠ modelB.promptTokens ∧
    modelA.headDimension ≠ modelB.headDimension ∧
    calculateArithmeticIntensity modelA = calculateArithmeticIntensity modelB :=
  ⟨rfl, rfl, rfl, rfl, by decide, by decide,
    calculateArithmeticIntensity_noninterference modelA modelB rfl rfl rfl rfl⟩

/-- C7 counterexample: at parameters = 130 the estimator returns the rounded
value `round(8192 * sqrt 2) = 11585`, which is not the irrational
`8192 * sqrt(130 / 65)` itself, so the claim that it returns
`8192 * sqrt(parameters / 65)` exactly fails. -/
theorem estimateModelDimension_sqrt_counterexample :
    estimateModelDimension 130 ≠ (8192 : ℝ) * Real.sqrt ((130 : ℝ) / 65) := by
  have hd : estimateModelDimension 130 =
      ((round ((8192 : ℝ) * Real.sqrt 2) : ℤ) : ℝ) := by
    norm_num [estimateModelDimension]
  have h2 : ((130 : ℝ) / 65) = 2 := by norm_num
  rw [hd, h2]
  have hirr : Irrational ((8192 : ℝ) * Real.sqrt 2) := by
    have h := irrational_sqrt_two.nat_mul (m := 8192) (by norm_num)
    simpa using h
  intro h
  exact hirr.ne_int _ h.symm

/-- C7 amended: the estimator is the stated piecewise rule on the six bounded
ranges, and above 65 billion parameters it returns the nearest integer (halves
up) to `8192 * sqrt(parameters / 65)`, the rounding applied by `Math.round`. -/
theorem estimateModelDimension_piecewise (p : ℚ) :
    (p ≤ 1 → estimateModelDimension p = 2048) ∧
    (1 < p → p ≤ 3 → estimateModelDimension p = 3072) ∧
    (3 < p → p ≤ 7 → estimateModelDimension p = 4096) ∧
    (7 < p → p ≤ 13 → estimateModelDimension p = 5120) ∧
    (13 < p → p ≤ 30 → estimateModelDimension p = 6656) ∧
    (30 < p → p ≤ 65 → estimateModelDimension p = 8192) ∧
    (65 < p → estimateModelDimension p =
      ((round ((8192 : ℝ) * Real.sqrt ((p : ℝ) / 65)) : ℤ) : ℝ)) := by
  refine ⟨fun h1 => ?_, fun h1 h2 => ?_, fun h1 h2 => ?_, fun h1 h2 => ?_,
    fun h1 h2 => ?_, fun h1 h2 => ?_, fun h1 => ?_⟩
  · simp only [estimateModelDimension]
    rw [if_pos h1]
  · simp only [estimateModelDimension]
    rw [if_neg (not_le.mpr h1), if_pos h2]
  · simp only [estimateModelDimension]
    rw [if_neg (not_le.mpr (by linarith)), if_neg (not_le.mpr h1), if_pos h2]
  · simp only [estimateModelDimension]
    rw [if_neg (not_le.mpr (by linarith)), if_neg (not_le.mpr (by linarith)),
      if_neg (not_le.mpr h1), if_pos h2]
  · simp only [estimateModelDimension]
    rw [if_neg (not_le.mpr (by linarith)), if_neg (not_le.mpr (by linarith)),
      if_neg (not_le.mpr (by linarith)), if_neg (not_le.mpr h1), if_pos h2]
  · simp only [estimateModelDimension]
    rw [if_neg (not_le.mpr (by linarith)), if_neg (not_le.mpr (by linarith)),
      if_neg (not_le.mpr (by linarith)), if_neg (not_le.mpr (by linarith)),
      if_neg (not_le.mpr h1), if_pos h2]
  · simp only [estimateModelDimension]
    rw [if_neg (not_le.mpr (by linarith)), if_neg (not_le.mpr (by linarith)),
      if_neg (not_le.mpr (by linarith)), if_neg (not_le.mpr (by linarith)),
      if_neg (not_le.mpr (by linarith)), if_neg (not_le.mpr h1)]

/-- C7 witness: the amended rule applied at the concrete 130-billion-parameter
input of the counterexample. -/
theorem estimateModelDimension_piecewise_witness :
    (65 < (130 : ℚ)) ∧
    estimateModelDimension 130 =
      ((round ((8192 : ℝ) * Real.sqrt (((130 : ℚ) : ℝ) / 65)) : ℤ) : ℝ) :=
  ⟨by decide, (estimateModelDimension_piecewise 130).2.2.2.2.2.2 (by decide)⟩

/-- C4 counterexample: on a GPU spec with zero memory bandwidth the ops-to-byte
sub-computation, evaluated with JavaScript number semantics, returns positive
Infinity instead of rejecting with an error, so the claimed validation does not
exist in the code. -/
theorem opsToByteRatio_div_zero_counterexample :
    calculateOpsToByteRatioJS gpuZeroBW = JSNum.posInf := by
  have h : (65 : ℚ) * 1e12 > 0 := by norm_num
  simp only [calculateOpsToByteRatioJS, gpuZeroBW, jsMul, jsDiv, zero_mul]
  rw [if_true, if_neg (ne_of_gt h), if_pos h]

/-- C4 amended: the engine performs no input validation: whenever the compute
bandwidth is positive and the memory bandwidth is zero, the ops-to-byte ratio
under JavaScript semantics is positive Infinity, and calculatePerformance still
returns a result record carrying the unguarded ratio; the only zero-guard in
the engine is the throughput-on-zero-time rule. -/
theorem calculatePerformance_no_validation (gpu : GPUSpecs) (model : ModelSpecs)
    (hc : 0 < gpu.computeBandwidth) (hm : gpu.memoryBandwidth = 0) :
    calculateOpsToByteRatioJS gpu = JSNum.posInf ∧
    (calculatePerformance gpu model).opsToByteRatio = calculateOpsToByteRatio gpu := by
  constructor
  · have hx : (0 : ℚ) < gpu.computeBandwidth * 1e12 := by positivity
    simp only [calculateOpsToByteRatioJS, hm, jsMul, jsDiv, zero_mul]
    rw [if_true, if_neg (ne_of_gt hx), if_pos hx]
  · rfl

/-- C4 witness: the missing-validation theorem applied at the concrete
zero-memory-bandwidth GPU spec and the sample model. -/
theorem calculatePerformance_no_validation_witness :
    (0 < gpuZeroBW.computeBandwidth) ∧ gpuZeroBW.memoryBandwidth = 0 ∧
    (calculateOpsToByteRatioJS gpuZeroBW = JSNum.posInf ∧
      (calculatePerformance gpuZeroBW modelA).opsToByteRatio =
        calculateOpsToByteRatio gpuZeroBW) :=
  ⟨by decide, rfl, calculatePerformance_no_validation gpuZeroBW modelA (by decide) rfl⟩
